import Mathlib

/-!
Verification of the dental-appointment chatbot's deterministic
post-processing pipeline (`chatbot-service`).

The development shallowly embeds the date arithmetic, the response
rewriting pipeline (`DentalChatbot._apply_date_replacements`), the mock
provider's time validation (`MockLLM._get_mock_response`), the slot
extraction from conversation history, and the session store
(`ConversationManager` / `ConversationSession`).

Text is modelled as `List Char`; the Python regular-expression operations
used by the source are embedded as dedicated scanning functions, one per
pattern, each documented with the pattern it implements.
-/

set_option maxRecDepth 10000

namespace Dental

/-- Text is a list of characters (Python `str`). -/
abbrev Str := List Char

/-- Coerce a Lean string literal to the text model. -/
def str (s : String) : Str := s.data

/-- ASCII lower-casing of one character (Python `str.lower` on the
character sets appearing in this code base). -/
def low (c : Char) : Char := c.toLower

/-- Lower-case a text (Python `str.lower()`). -/
def lowerStr (s : Str) : Str := s.map low

/-- Word character, Python regex `\w` over the ASCII texts in play. -/
def isWordChar (c : Char) : Bool := c.isAlpha || c.isDigit || c == '_'

/-- Whitespace, Python regex `\s` over the texts in play. -/
def isSpc (c : Char) : Bool := c == ' ' || c == '\t' || c == '\n' || c == '\r'

/-- Decimal digit, Python regex `\d`. -/
def isDig (c : Char) : Bool := c.isDigit

/-- Does `p` start `s` (case-sensitive)? -/
def startsWith : Str → Str → Bool
  | [], _ => true
  | _ :: _, [] => false
  | p :: ps, c :: cs => p == c && startsWith ps cs

/-- Python `needle in hay` substring test (case-sensitive). -/
def containsSub (needle : Str) : Str → Bool
  | [] => needle.isEmpty
  | c :: cs => startsWith needle (c :: cs) || containsSub needle cs

/-- Match a literal pattern case-insensitively, returning the rest of the
input after the match. -/
def matchLitCI : Str → Str → Option Str
  | [], rest => some rest
  | _ :: _, [] => none
  | p :: ps, c :: cs => if low p == low c then matchLitCI ps cs else none

/-- Match a literal pattern case-sensitively, returning the rest. -/
def matchLit : Str → Str → Option Str
  | [], rest => some rest
  | _ :: _, [] => none
  | p :: ps, c :: cs => if p == c then matchLit ps cs else none

/-- Python `str.strip()`: drop leading and trailing whitespace. -/
def strip (s : Str) : Str :=
  ((s.dropWhile isSpc).reverse.dropWhile isSpc).reverse

/-- Python `str.split()` word count: number of maximal non-whitespace runs. -/
def splitWS (s : Str) : List Str :=
  let rec go : Str → Str → List Str
    | acc, [] => if acc.isEmpty then [] else [acc.reverse]
    | acc, c :: cs =>
      if isSpc c then
        if acc.isEmpty then go [] cs else acc.reverse :: go [] cs
      else go (c :: acc) cs
  go [] s

/-- Python `str.title()` on ASCII text: upper-case a letter that does not
follow a letter, lower-case a letter that does. -/
def titleCase (s : Str) : Str :=
  let rec go (prevAlpha : Bool) : Str → Str
    | [] => []
    | c :: cs =>
      let c' := if c.isAlpha then (if prevAlpha then c.toLower else c.toUpper) else c
      c' :: go c.isAlpha cs
  go false s

/-- Text after the first occurrence of `sep` (Python
`s[s.find(sep) + len(sep):]` when `find` succeeds). -/
def afterFirst (sep : Str) : Str → Option Str
  | [] => if sep.isEmpty then some [] else none
  | c :: cs =>
    match matchLit sep (c :: cs) with
    | some rest => some rest
    | none => afterFirst sep cs

/-- Auxiliary scanner for `afterLast`: remembers the text following the
most recent occurrence of `sep` seen so far. -/
def afterLastAux (sep : Str) (best : Str) : Str → Str
  | [] => best
  | c :: cs =>
    match matchLit sep (c :: cs) with
    | some rest => afterLastAux sep rest cs
    | none => afterLastAux sep best cs

/-- Text after the last occurrence of `sep`; the whole text when `sep` is
absent (Python `s.split(sep)[-1]` for the non-self-overlapping separators
used in this code base). -/
def afterLast (sep s : Str) : Str := afterLastAux sep s s

/-! ## Regex scanning primitives

Each Python regular expression used by the source is embedded as a
dedicated matcher.  A matcher of type `M` reports how many characters it
consumes at the current position; `reSearch` scans a text left to right
(tracking whether the previous character is a word character, for `\b`)
and returns the first match's payload, exactly like `re.search`. -/

/-- A positional matcher: consumed length at the current position. -/
abbrev M := Str → Option Nat

/-- Sequencing of matchers (concatenation of regex parts). -/
def mseq (a b : M) : M := fun s => (a s).bind fun n => (b (s.drop n)).map (n + ·)

/-- Ordered alternation (regex `|`). -/
def malt (a b : M) : M := fun s => ((a s).orElse fun _ => b s)

/-- Greedy optional group with no backtracking, used where the group's
content can never be confused with what follows it. -/
def mopt (a : M) : M := fun s => ((a s).orElse fun _ => some 0)

/-- Optional group with one-level backtracking: try `a` then `k`, else
`k` alone (regex `(?:a)?k`). -/
def moptB (a k : M) : M := malt (mseq a k) k

/-- Literal text, case-sensitive or case-insensitive. -/
def mlit (ci : Bool) (p : Str) : M := fun s =>
  match (if ci then matchLitCI p s else matchLit p s) with
  | some _ => some p.length
  | none => none

/-- `\s+`. -/
def mspc1 : M := fun s =>
  let n := (s.takeWhile isSpc).length
  if n == 0 then none else some n

/-- `\s*`. -/
def mspc0 : M := fun s => some (s.takeWhile isSpc).length

/-- `\d{k}` (exactly `k` digits; further digits may follow). -/
def mdigitsExact (k : Nat) : M := fun s =>
  if k ≤ (s.takeWhile isDig).length then some k else none

/-- `\d{1,2}` under a continuation that can never consume a digit (true
for every use in this code base, where the next regex token is `:`, a
space, a letter or a boundary): the greedy choice min(run, 2) is then
equivalent to Python's backtracking behaviour, because when the digit run
exceeds the take both alternatives leave a digit in front of the
continuation. -/
def mdigits12 : M := fun s =>
  let n := (s.takeWhile isDig).length
  if n == 0 then none else some (min n 2)

/-- `\d{0,4}` (greedy, at the end of a pattern). -/
def mdigits04 : M := fun s => some (min (s.takeWhile isDig).length 4)

/-- End-of-pattern `\b` when the preceding pattern character is a word
character: the next text character must be absent or a non-word. -/
def mwb : M := fun s =>
  match s with
  | [] => some 0
  | c :: _ => if isWordChar c then none else some 0

/-- `re.search`: first position (scanning left to right) where the
positional matcher `m` succeeds; `m` also receives whether the previous
character is a word character, for leading `\b`. The payload is
arbitrary, so group contents can be returned. -/
def reSearch (m : Bool → Str → Option α) : Bool → Str → Option α
  | prevW, [] => m prevW []
  | prevW, c :: cs =>
    match m prevW (c :: cs) with
    | some r => some r
    | none => reSearch m (isWordChar c) cs

/-- `re.search` from the start of the text. -/
def reSearch0 (m : Bool → Str → Option α) (s : Str) : Option α :=
  reSearch m false s

/-- Lift an `M` matcher with a leading `\b` into a search payload of
(matched text, rest after the match). -/
def mbWord (m : M) (prevW : Bool) (s : Str) : Option (Str × Str) :=
  if prevW then none
  else (m s).map fun n => (s.take n, s.drop n)

/-- Lift an `M` matcher with no leading `\b`. -/
def mAny (m : M) (_ : Bool) (s : Str) : Option (Str × Str) :=
  (m s).map fun n => (s.take n, s.drop n)

/-- The negative-lookahead body `\s*,\s*\w+\s+\d{1,2},\s*\d{4}` guarding
day-name substitution against re-stamping a day name that is already
followed by a formatted date (`chatbot_chain.py` lines 650, 740, 1004). -/
def stampGuard (s : Str) : Bool :=
  let s1 := s.dropWhile isSpc
  match s1 with
  | ',' :: r1 =>
    let r2 := r1.dropWhile isSpc
    let w := r2.takeWhile isWordChar
    if w.isEmpty then false
    else
      let r3 := r2.dropWhile isWordChar
      if (r3.takeWhile isSpc).isEmpty then false
      else
        let r4 := r3.dropWhile isSpc
        let dd := (r4.takeWhile isDig).length
        if dd == 0 || 2 < dd then false
        else
          match r4.drop dd with
          | ',' :: r5 =>
            let r6 := r5.dropWhile isSpc
            4 ≤ (r6.takeWhile isDig).length
          | _ => false
  | _ => false

/-- `re.sub` over a case-insensitive literal word pattern
`\bPAT\b(?where `extra` holds)`: replaces every non-overlapping
occurrence, scanning the original text left to right, with boundaries
evaluated against the original text (the replacement text is not
rescanned), exactly like Python `re.sub`.  `extra` is the extra lookahead
condition on the text following the match (always true for the plain
`\bPAT\b` patterns). -/
def subWordCIAux (pat repl : Str) (extra : Str → Bool) :
    Nat → Bool → Str → Str
  | 0, _, s => s
  | _ + 1, _, [] => []
  | fuel + 1, prevW, c :: cs =>
    if !prevW then
      match matchLitCI pat (c :: cs) with
      | some rest =>
        if (match rest with | [] => true | c' :: _ => !isWordChar c') && extra rest then
          -- the patterns in play end in a letter, so after the match the
          -- previous character is a word character
          repl ++ subWordCIAux pat repl extra fuel true rest
        else c :: subWordCIAux pat repl extra fuel (isWordChar c) cs
      | none => c :: subWordCIAux pat repl extra fuel (isWordChar c) cs
    else c :: subWordCIAux pat repl extra fuel (isWordChar c) cs

/-- `re.sub(r'\b' + pat + r'\b', repl, s, flags=re.IGNORECASE)`. -/
def subWordCI (pat repl s : Str) : Str :=
  subWordCIAux pat repl (fun _ => true) (s.length + 1) false s

/-- `re.sub(r'\b' + day + r'\b(?!\s*,\s*\w+\s+\d{1,2},\s*\d{4})', repl,
s, flags=re.IGNORECASE)`: the double-stamp-guarded day replacement
(`chatbot_chain.py` lines 650–651, 740–741, 1004–1005). -/
def subDayGuard (day repl s : Str) : Str :=
  subWordCIAux day repl (fun rest => !stampGuard rest) (s.length + 1) false s

/-- Python `str.replace(needle, repl)`: replace all occurrences,
case-sensitive, scanning left to right. -/
def replaceAll (needle repl : Str) : Nat → Str → Str
  | 0, s => s
  | _ + 1, [] => []
  | fuel + 1, c :: cs =>
    match matchLit needle (c :: cs) with
    | some rest =>
      if needle.isEmpty then c :: cs
      else repl ++ replaceAll needle repl fuel rest
    | none => c :: replaceAll needle repl fuel cs

/-- Python `s.replace(needle, repl)`. -/
def pyReplace (needle repl s : Str) : Str := replaceAll needle repl (s.length + 1) s

/-- Numeric value of a digit string. -/
def natVal (s : Str) : Nat := s.foldl (fun acc c => acc * 10 + (c.toNat - 48)) 0

/-! ## Calendar model

Python `datetime` dates are embedded as year/month/day triples over the
proleptic Gregorian calendar; `timedelta(days=n)` is `addDays`, and
`date.weekday()` (Monday = 0 … Sunday = 6) is computed from the rata-die
day number. -/

/-- Gregorian leap-year rule. -/
def isLeap (y : Nat) : Bool := (y % 4 == 0 && y % 100 != 0) || y % 400 == 0

/-- Days in a month of a given year. -/
def daysInMonth (y m : Nat) : Nat :=
  if m == 2 then (if isLeap y then 29 else 28)
  else if m == 4 || m == 6 || m == 9 || m == 11 then 30
  else 31

/-- A calendar date (Python `datetime` restricted to its date part). -/
structure Date where
  year : Nat
  month : Nat
  day : Nat
deriving DecidableEq, Repr

/-- Days in the full years before year `y` (proleptic Gregorian). -/
def daysBeforeYear (y : Nat) : Nat :=
  365 * (y - 1) + (y - 1) / 4 + (y - 1) / 400 - (y - 1) / 100

/-- Day-of-year number, January 1 = 1. -/
def dayOfYear (y m d : Nat) : Nat :=
  (List.range (m - 1)).foldl (fun acc i => acc + daysInMonth y (i + 1)) 0 + d

/-- Rata-die day number: January 1 of year 1 is day 1. -/
def toRata (dt : Date) : Nat := daysBeforeYear dt.year + dayOfYear dt.year dt.month dt.day

/-- Python `date.weekday()`: Monday = 0 … Sunday = 6 (January 1 of year 1
is a Monday in the proleptic Gregorian calendar). -/
def weekdayOf (dt : Date) : Nat := (toRata dt + 6) % 7

/-- The next calendar day (`timedelta(days=1)`). -/
def nextDay (dt : Date) : Date :=
  if dt.day < daysInMonth dt.year dt.month then ⟨dt.year, dt.month, dt.day + 1⟩
  else if dt.month < 12 then ⟨dt.year, dt.month + 1, 1⟩
  else ⟨dt.year + 1, 1, 1⟩

/-- Python `dt + timedelta(days=n)`. -/
def addDays (dt : Date) : Nat → Date
  | 0 => dt
  | n + 1 => nextDay (addDays dt n)

/-! ## CalendarResolver: next occurrence of a weekday

`chatbot_chain.py` lines 479–514 compute, for each weekday index
`i ∈ {0..6}` (`monday = 0` … `sunday = 6`),
`days_until = (i - today.weekday()) % 7`, forcing `7` when the distance
is `0`, and then `next_day = today + timedelta(days=days_until)`.
Python's `%` on `int` returns a value with the sign of the divisor, which
for the positive divisor `7` agrees with Lean's `Int.emod`. -/

/-- `days_until` computation from `chatbot_chain.py` lines 481–514:
`d = (target - today.weekday()) % 7`, and `7` when `d = 0`. -/
def daysUntilWeekday (target todayWd : Int) : Int :=
  let d := (target - todayWd) % 7
  if d = 0 then 7 else d

/-- Weekday of an absolute (rata-die style) day number, Monday = 0. -/
def weekdayAbs (n : Int) : Int := n % 7

/-- The resolved next occurrence of weekday `target` from anchor day
number `a` (the date substituted for a weekday name by the pipeline). -/
def nextOccurrenceAbs (a : Int) (target : Int) : Int :=
  a + daysUntilWeekday target (weekdayAbs a)

/-- `days_until` over `Nat` weekday indices, used by the executable
pipeline embedding; agrees with `daysUntilWeekday` on indices `0..6`. -/
def daysUntilWeekdayN (target todayWd : Nat) : Nat :=
  let d := (7 + target - todayWd) % 7
  if d = 0 then 7 else d

/-- The concrete `next_<weekday>` date used by the rewriting pipeline. -/
def nextWeekdayDate (today : Date) (target : Nat) : Date :=
  addDays today (daysUntilWeekdayN target (weekdayOf today))

/-! ## strftime -/

/-- Full month names (`%B`). -/
def monthNames : List Str :=
  [str "January", str "February", str "March", str "April", str "May",
   str "June", str "July", str "August", str "September", str "October",
   str "November", str "December"]

/-- Abbreviated month names (`%b`). -/
def monthAbbrevs : List Str :=
  [str "Jan", str "Feb", str "Mar", str "Apr", str "May", str "Jun",
   str "Jul", str "Aug", str "Sep", str "Oct", str "Nov", str "Dec"]

/-- Weekday names (`%A`), Monday = 0. -/
def weekdayNames : List Str :=
  [str "Monday", str "Tuesday", str "Wednesday", str "Thursday",
   str "Friday", str "Saturday", str "Sunday"]

/-- Name of month `m` (1-based). -/
def monthName (m : Nat) : Str := (monthNames.get? (m - 1)).getD []

/-- Decimal digits of `n`. -/
def natStr (n : Nat) : Str := (Nat.toDigits 10 n)

/-- `%d`: zero-padded two-digit day. -/
def pad2 (n : Nat) : Str := if n < 10 then '0' :: natStr n else natStr n

/-- `strftime('%B %d, %Y')`, e.g. `"October 22, 2025"`. -/
def fmtBdY (dt : Date) : Str :=
  monthName dt.month ++ str " " ++ pad2 dt.day ++ str ", " ++ natStr dt.year

/-- `strftime('%A')`, the weekday name. -/
def weekdayName (dt : Date) : Str := (weekdayNames.get? (weekdayOf dt)).getD []

/-- `strftime('%A, %B %d, %Y')`, e.g. `"Wednesday, October 22, 2025"`. -/
def fmtABdY (dt : Date) : Str := weekdayName dt ++ str ", " ++ fmtBdY dt

/-! ## The concrete regular expressions of the source -/

/-- Alternation over a list of literal names (regex `(?:N1|N2|...)`),
tried in order. -/
def mnames (ci : Bool) (names : List Str) : M := fun s =>
  names.foldr (fun n acc => ((mlit ci n s).orElse fun _ => acc)) none

/-- Full month name alternation `(?:January|...|December)`. -/
def mmonthFull (ci : Bool) : M := mnames ci monthNames

/-- Abbreviated month prefix `(?:jan|...|dec)` (case-insensitive in every
use). -/
def mmonthAbbr : M := mnames true monthAbbrevs

/-- Weekday alternation `(?:Monday|...|Sunday)` (case-sensitive in every
use). -/
def mwdayName : M := mnames false weekdayNames

/-- Ordinal suffix `(?:st|nd|rd|th)?` content. -/
def mordSuffix (ci : Bool) : M :=
  malt (mlit ci (str "st")) (malt (mlit ci (str "nd"))
    (malt (mlit ci (str "rd")) (mlit ci (str "th"))))

/-- Year group `,\s*\d{4}`. -/
def myearGrp : M := mseq (mlit false (str ",")) (mseq mspc0 (mdigitsExact 4))

/-- `(?:January|...)\s+\d{1,2}` — the month-day core shared by several
patterns. -/
def mMonthDayCore (ci : Bool) : M := mseq (mmonthFull ci) (mseq mspc1 mdigits12)

/-- Line 631: `\b(?:January|...)\s+\d{1,2}(?:,\s*\d{4})?` (case-sensitive);
as a search its success does not depend on the optional year group. -/
def hasSpecificDateA (s : Str) : Bool :=
  (reSearch0 (mbWord (mseq (mMonthDayCore false) (mopt myearGrp))) s).isSome

/-- Line 632: `\b\d{1,2}(?:st|nd|rd|th)?\s+(?:January|...)` (case-sensitive). -/
def hasSpecificDateB (s : Str) : Bool :=
  (reSearch0 (mbWord (mseq mdigits12
    (mseq (mopt (mordSuffix false)) (mseq mspc1 (mmonthFull false))))) s).isSome

/-- Line 633: `\b(?:January|...)\s+\d{1,2},\s*\d{4}` (case-sensitive). -/
def hasSpecificDateC (s : Str) : Bool :=
  (reSearch0 (mbWord (mseq (mMonthDayCore false) myearGrp)) s).isSome

/-- Lines 631–633 combined (`has_specific_dates`). -/
def hasSpecificDates (s : Str) : Bool :=
  hasSpecificDateA s || hasSpecificDateB s || hasSpecificDateC s

/-- Line 660: `\b(?:January|...)\s+\d{1,2}(?:st|nd|rd|th)?(?:,\s*\d{4})?`
(case-insensitive), returning the matched text. -/
def userDateP1 (s : Str) : Option Str :=
  (reSearch0 (mbWord (mseq (mMonthDayCore true)
    (mseq (mopt (mordSuffix true)) (mopt myearGrp)))) s).map Prod.fst

/-- Line 661: `\b\d{1,2}(?:st|nd|rd|th)?\s+(?:January|...)`
(case-insensitive), returning the matched text. -/
def userDateP2 (s : Str) : Option Str :=
  (reSearch0 (mbWord (mseq mdigits12
    (mseq (mopt (mordSuffix true)) (mseq mspc1 (mmonthFull true))))) s).map Prod.fst

/-- Lines 660–661: `user_date_match` — first pattern, then the second. -/
def userDateMatch (s : Str) : Option Str :=
  match userDateP1 s with
  | some t => some t
  | none => userDateP2 s

/-- Line 697: `\b(?:Monday|...|Sunday),?\s+(?:January|...)\s+\d{1,2}(?:,\s*\d{4})?`
(case-sensitive), returning the matched text. -/
def dateDayMatch (s : Str) : Option Str :=
  (reSearch0 (mbWord (mseq mwdayName
    (mseq (mopt (mlit false (str ",")))
      (mseq mspc1 (mseq (mMonthDayCore false) (mopt myearGrp)))))) s).map Prod.fst

/-- Line 701: `\b(?:Monday|...|Sunday)` inside the matched text. -/
def dayInMatch (s : Str) : Option Str :=
  (reSearch0 (mbWord mwdayName) s).map Prod.fst

/-- Line 702: `(?:January|...)\s+\d{1,2}(?:,\s*\d{4})?` (no `\b`). -/
def dateInMatch (s : Str) : Option Str :=
  (reSearch0 (mAny (mseq (mMonthDayCore false) (mopt myearGrp))) s).map Prod.fst

/-- Line 646: `\b` + day + `\s*[-–]\s*Friday` (case-insensitive). -/
def hasDayDashFriday (day s : Str) : Bool :=
  (reSearch0 (mbWord (mseq (mlit true day)
    (mseq mspc0 (mseq (malt (mlit true (str "-")) (mlit true (str "–")))
      (mseq mspc0 (mlit true (str "Friday"))))))) s).isSome

/-- Line 648: `\bMonday\s+through\s+` + day (case-insensitive). -/
def hasMondayThrough (day s : Str) : Bool :=
  (reSearch0 (mbWord (mseq (mlit true (str "Monday"))
    (mseq mspc1 (mseq (mlit true (str "through")) (mseq mspc1 (mlit true day)))))) s).isSome

/-- `[A-Z][a-z]+` capitalised word. -/
def mcapWord : M := fun s =>
  match s with
  | c :: cs =>
    if c.isUpper then
      let n := (cs.takeWhile (·.isLower)).length
      if n == 0 then none else some (1 + n)
    else none
  | [] => none

/-- Line 748: `\b[A-Z][a-z]+\s+[A-Z][a-z]+\b`. -/
def hasTwoCapWords (s : Str) : Bool :=
  (reSearch0 (mbWord (mseq mcapWord (mseq mspc1 (mseq mcapWord mwb)))) s).isSome

/-- `[-.]?` separator of the phone patterns. -/
def msepDashDot : M := mopt fun s =>
  match s with
  | c :: _ => if c == '-' || c == '.' then some 1 else none
  | [] => none

/-- `\d{3}[-.]?\d{3}[-.]?\d{4}` phone core. -/
def mphoneCore : M :=
  mseq (mdigitsExact 3) (mseq msepDashDot
    (mseq (mdigitsExact 3) (mseq msepDashDot (mdigitsExact 4))))

/-- Line 750: `\b\d{3}[-.]?\d{3}[-.]?\d{4}\b`. -/
def hasPhoneSepB (s : Str) : Bool :=
  (reSearch0 (mbWord (mseq mphoneCore mwb)) s).isSome

/-- Line 751: `\b\d{10}\b`. -/
def hasPhone10B (s : Str) : Bool :=
  (reSearch0 (mbWord (mseq (mdigitsExact 10) mwb)) s).isSome

/-- `(?:AM|PM|am|pm)` — the case-sensitive four-way alternation. -/
def mampm4 : M :=
  malt (mlit false (str "AM")) (malt (mlit false (str "PM"))
    (malt (mlit false (str "am")) (mlit false (str "pm"))))

/-- Line 753: `\b\d{1,2}:\d{2}\s*(?:AM|PM|am|pm)\b`. -/
def hasTimeB (s : Str) : Bool :=
  (reSearch0 (mbWord (mseq mdigits12 (mseq (mlit false (str ":"))
    (mseq (mdigitsExact 2) (mseq mspc0 (mseq mampm4 mwb)))))) s).isSome

/-- Line 755: `\b(?:January|...)\s+\d{1,2}(?:st|nd|rd|th)?(?:,\s*\d{4})?\b`
(case-sensitive; the optional year group backtracks against the final `\b`). -/
def hasDateDetail1 (s : Str) : Bool :=
  (reSearch0 (mbWord (mseq (mMonthDayCore false)
    (moptB (mordSuffix false) (moptB myearGrp mwb)))) s).isSome

/-- Line 756: `\b\d{1,2}(?:st|nd|rd|th)?\s+(?:January|...)\b`
(case-sensitive). -/
def hasDateDetail2 (s : Str) : Bool :=
  (reSearch0 (mbWord (mseq mdigits12 (mseq (mopt (mordSuffix false))
    (mseq mspc1 (mseq (mmonthFull false) mwb))))) s).isSome

/-- Line 832: `\d{1,2}(?:st|nd|rd|th)?\s+(?:jan|...|dec)[a-z]*\s*\d{0,4}`
(case-insensitive, no `\b`), returning the matched text. -/
def historyDateMatch (s : Str) : Option Str :=
  (reSearch0 (mAny (mseq mdigits12 (mseq (mopt (mordSuffix true))
    (mseq mspc1 (mseq mmonthAbbr
      (mseq (fun t => some (t.takeWhile (·.isAlpha)).length)
        (mseq mspc0 mdigits04))))))) s).map Prod.fst

/-- Line 840: `\d{1,2}(?::\d{2})?\s*(?:am|pm)` (case-insensitive, no `\b`),
returning the matched text. -/
def historyTimeMatch (s : Str) : Option Str :=
  (reSearch0 (mAny (mseq mdigits12
    (mseq (mopt (mseq (mlit false (str ":")) (mdigitsExact 2)))
      (mseq mspc0 (malt (mlit true (str "am")) (mlit true (str "pm"))))))) s).map
    Prod.fst

/-- Line 880: `(\d{1,2}:\d{2}\s*(?:AM|PM|am|pm))` (case-sensitive
alternation, no `\b`), returning the matched text. -/
def responseTimeMatch (s : Str) : Option Str :=
  (reSearch0 (mAny (mseq mdigits12 (mseq (mlit false (str ":"))
    (mseq (mdigitsExact 2) (mseq mspc0 mampm4))))) s).map Prod.fst

/-- Line 846: `\d{10}` then `\d{3}[-.]?\d{3}[-.]?\d{4}` (no `\b`),
returning the matched text, first pattern first. -/
def historyPhoneMatch (s : Str) : Option Str :=
  match (reSearch0 (mAny (mdigitsExact 10)) s).map Prod.fst with
  | some t => some t
  | none => (reSearch0 (mAny mphoneCore) s).map Prod.fst

/-- Capitalised-name group `[A-Z][a-z]+(?:\s+[A-Z][a-z]+)?` with the
optional second word backtracking against the continuation `k`; returns
(group text length, total consumed length). -/
def mnameGrp (k : M) : Str → Option (Nat × Nat) := fun s =>
  match mcapWord s with
  | none => none
  | some n1 =>
    let rest1 := s.drop n1
    match mseq mspc1 mcapWord rest1 with
    | some n2 =>
      match k (s.drop (n1 + n2)) with
      | some nk => some (n1 + n2, n1 + n2 + nk)
      | none => (k rest1).map fun nk => (n1, n1 + nk)
    | none => (k rest1).map fun nk => (n1, n1 + nk)

/-- Line 853: `for\s+([A-Z][a-z]+(?:\s+[A-Z][a-z]+)?)`, returning
group 1. -/
def nameFallbackP1 (s : Str) : Option Str :=
  reSearch0 (fun _ t =>
    match mseq (mlit false (str "for")) mspc1 t with
    | none => none
    | some npre =>
      (mnameGrp (fun _ => some 0) (t.drop npre)).map fun (g, _) =>
        (t.drop npre).take g) s

/-- Line 854: `([A-Z][a-z]+(?:\s+[A-Z][a-z]+)?)\s+for`, returning
group 1. -/
def nameFallbackP2 (s : Str) : Option Str :=
  reSearch0 (fun _ t =>
    (mnameGrp (mseq mspc1 (mlit false (str "for"))) t).map fun (g, _) =>
      t.take g) s

/-- Lines 851–860: the name fallback tries pattern 1 then pattern 2. -/
def nameFallback (s : Str) : Option Str :=
  match nameFallbackP1 s with
  | some n => some n
  | none => nameFallbackP2 s

/-! ## `datetime.strptime` for the formats used by the source

Python's `strptime` requires the whole string to match; `%B`/`%b` match
month names case-insensitively, `%d` matches `3[01]|[12]\d|0[1-9]|[1-9]`,
`%Y` matches exactly four digits, whitespace in the format matches one or
more whitespace characters, and the resulting date's day is validated
against the month (with the default year 1900 when the format carries no
year). -/

/-- `%B` / `%b`: month number and rest, case-insensitive, trying the
twelve names in order. -/
def parseMonth (names : List Str) (s : Str) : Option (Nat × Str) :=
  let rec go (i : Nat) : List Str → Option (Nat × Str)
    | [] => none
    | n :: ns =>
      match matchLitCI n s with
      | some rest => some (i + 1, rest)
      | none => go (i + 1) ns
  go 0 names

/-- `%d`: `3[01]|[12]\d|0[1-9]|[1-9]`, value and rest. -/
def parseDay (s : Str) : Option (Nat × Str) :=
  match s with
  | '3' :: c :: rest =>
    if c == '0' || c == '1' then some (30 + (c.toNat - 48), rest)
    else some (3, c :: rest)
  | c1 :: c2 :: rest =>
    if (c1 == '1' || c1 == '2') && isDig c2 then
      some ((c1.toNat - 48) * 10 + (c2.toNat - 48), rest)
    else if c1 == '0' && ('1' ≤ c2 && c2 ≤ '9') then some (c2.toNat - 48, rest)
    else if '1' ≤ c1 && c1 ≤ '9' then some (c1.toNat - 48, c2 :: rest)
    else none
  | [c] => if '1' ≤ c && c ≤ '9' then some (c.toNat - 48, []) else none
  | [] => none

/-- `%Y`: exactly four digits. -/
def parseYear4 (s : Str) : Option (Nat × Str) :=
  match s with
  | a :: b :: c :: d :: rest =>
    if isDig a && isDig b && isDig c && isDig d then
      some (natVal [a, b, c, d], rest)
    else none
  | _ => none

/-- Format whitespace: one or more whitespace characters. -/
def parseWS (s : Str) : Option Str :=
  let n := (s.takeWhile isSpc).length
  if n == 0 then none else some (s.drop n)

/-- Construct the date, validating the day against the month and year
(as `datetime` does); month validity comes from the name alternation. -/
def mkValidDate (y m d : Nat) : Option Date :=
  if 1 ≤ d && d ≤ daysInMonth y m then some ⟨y, m, d⟩ else none

/-- `strptime(s, "%B %d")` (default year 1900). -/
def strptimeBd (s : Str) : Option Date :=
  match parseMonth monthNames s with
  | none => none
  | some (m, r1) =>
    match parseWS r1 with
    | none => none
    | some r2 =>
      match parseDay r2 with
      | some (d, []) => mkValidDate 1900 m d
      | _ => none

/-- `strptime(s, "%d %B")` (default year 1900). -/
def strptimedB (s : Str) : Option Date :=
  match parseDay s with
  | none => none
  | some (d, r1) =>
    match parseWS r1 with
    | none => none
    | some r2 =>
      match parseMonth monthNames r2 with
      | some (m, []) => mkValidDate 1900 m d
      | _ => none

/-- `strptime(s, "%d %b")` (default year 1900). -/
def strptimedb (s : Str) : Option Date :=
  match parseDay s with
  | none => none
  | some (d, r1) =>
    match parseWS r1 with
    | none => none
    | some r2 =>
      match parseMonth monthAbbrevs r2 with
      | some (m, []) => mkValidDate 1900 m d
      | _ => none

/-- `strptime(s, "%B %d, %Y")`. -/
def strptimeBdY (s : Str) : Option Date :=
  match parseMonth monthNames s with
  | none => none
  | some (m, r1) =>
    match parseWS r1 with
    | none => none
    | some r2 =>
      match parseDay r2 with
      | none => none
      | some (d, r3) =>
        match r3 with
        | ',' :: r4 =>
          match parseWS r4 with
          | none => none
          | some r5 =>
            match parseYear4 r5 with
            | some (y, []) => mkValidDate y m d
            | _ => none
        | _ => none

/-- `strptime(s, "%d %B %Y")`. -/
def strptimedBY (s : Str) : Option Date :=
  match parseDay s with
  | none => none
  | some (d, r1) =>
    match parseWS r1 with
    | none => none
    | some r2 =>
      match parseMonth monthNames r2 with
      | none => none
      | some (m, r3) =>
        match parseWS r3 with
        | none => none
        | some r4 =>
          match parseYear4 r4 with
          | some (y, []) => mkValidDate y m d
          | _ => none

/-- `strptime(s, "%d %b %Y")`. -/
def strptimedbY (s : Str) : Option Date :=
  match parseDay s with
  | none => none
  | some (d, r1) =>
    match parseWS r1 with
    | none => none
    | some r2 =>
      match parseMonth monthAbbrevs r2 with
      | none => none
      | some (m, r3) =>
        match parseWS r3 with
        | none => none
        | some r4 =>
          match parseYear4 r4 with
          | some (y, []) => mkValidDate y m d
          | _ => none

/-- The `year == 1900 → 2025` fix-up applied after the year-less parses
(`chatbot_chain.py` lines 684–685, 717–718, 897–898). -/
def fix1900 (d : Date) : Date :=
  if d.year == 1900 then { d with year := 2025 } else d

/-! ## Ordinal cleaning and time normalisation -/

/-- Line 667: `re.sub(r'\b(\d{1,2})(?:st|nd|rd|th)\b', r'\1', s)` —
replace a word-bounded 1–2-digit number with ordinal suffix by the bare
number (case-sensitive). -/
def cleanOrdB (s : Str) : Str :=
  let rec go : Nat → Bool → Str → Str
    | 0, _, t => t
    | _ + 1, _, [] => []
    | fuel + 1, prevW, c :: cs =>
      let m : Option (Nat × Nat) :=
        if prevW then none
        else
          match mseq mdigits12 (mordSuffix false) (c :: cs) with
          | none => none
          | some n =>
            match mdigits12 (c :: cs) with
            | some nd =>
              match (c :: cs).drop n with
              | [] => some (nd, n)
              | c' :: _ => if isWordChar c' then none else some (nd, n)
            | none => none
      match m with
      | some (nd, n) =>
        (c :: cs).take nd ++ go fuel true ((c :: cs).drop n)
      | none => c :: go fuel (isWordChar c) cs
  go (s.length + 1) false s

/-- Line 891: `re.sub(r'(?:st|nd|rd|th)', '', s)` — delete every
occurrence of the four suffixes anywhere (case-sensitive). -/
def stripOrd (s : Str) : Str :=
  let rec go : Nat → Str → Str
    | 0, t => t
    | _ + 1, [] => []
    | fuel + 1, c :: cs =>
      match mordSuffix false (c :: cs) with
      | some n => go fuel ((c :: cs).drop n)
      | none => c :: go fuel cs
  go (s.length + 1) s

/-- Python `str.upper()` on ASCII text. -/
def upperStr (s : Str) : Str := s.map Char.toUpper

/-- `(AM|PM)` (applied to upper-cased text). -/
def mampmUp : M := malt (mlit false (str "AM")) (mlit false (str "PM"))

/-- Line 870: `re.sub(r'(\d{1,2})\s*(AM|PM)', r'\1:00 \2', s)` on the
upper-cased time string. -/
def timeSubNoColon (s : Str) : Str :=
  let rec go : Nat → Str → Str
    | 0, t => t
    | _ + 1, [] => []
    | fuel + 1, c :: cs =>
      let t := c :: cs
      match mdigits12 t with
      | some nd =>
        let r1 := t.drop nd
        let nsp := (r1.takeWhile isSpc).length
        match mampmUp (r1.drop nsp) with
        | some na =>
          t.take nd ++ str ":00 " ++ (r1.drop nsp).take na ++
            go fuel (r1.drop (nsp + na))
        | none => c :: go fuel cs
      | none => c :: go fuel cs
  go (s.length + 1) s

/-- Line 873: `re.sub(r'(\d{1,2}:\d{2})\s*(AM|PM)', r'\1 \2', s)` on the
upper-cased time string. -/
def timeSubColon (s : Str) : Str :=
  let rec go : Nat → Str → Str
    | 0, t => t
    | _ + 1, [] => []
    | fuel + 1, c :: cs =>
      let t := c :: cs
      match mseq mdigits12 (mseq (mlit false (str ":")) (mdigitsExact 2)) t with
      | some ng =>
        let r1 := t.drop ng
        let nsp := (r1.takeWhile isSpc).length
        match mampmUp (r1.drop nsp) with
        | some na =>
          t.take ng ++ str " " ++ (r1.drop nsp).take na ++
            go fuel (r1.drop (nsp + na))
        | none => c :: go fuel cs
      | none => c :: go fuel cs
  go (s.length + 1) s

/-- Lines 866–873: normalise an extracted time string — upper-case, then
add `:00` when there is no colon, else fix the spacing. -/
def normalizeTime (s : Str) : Str :=
  let up := upperStr s
  if containsSub (str ":") up then timeSubColon up else timeSubNoColon up

/-! ## The response-rewriting pipeline
(`DentalChatbot._apply_date_replacements`, `chatbot_chain.py` 463–935) -/

/-- Weekday name for index `i` (Monday = 0). -/
def dayNameOf (i : Nat) : Str := (weekdayNames.get? i).getD []

/-- The vague-phrase prefixes, in the per-day order of lines 529–564. -/
def vaguePrefixes : List Str :=
  [str "this upcoming ", str "next ", str "the following ", str "this ",
   str "upcoming "]

/-- Day order of the vague-phrase list (lines 529–564): Tuesday, Monday,
Wednesday, Thursday, Friday, Saturday, Sunday. -/
def vagueDayOrder : List Nat := [1, 0, 2, 3, 4, 5, 6]

/-- Lines 529–565: the 35 vague-phrase patterns with their replacements
`"<Day>, <next_day strftime('%B %d, %Y')>"`. -/
def vaguePhrases (today : Date) : List (Str × Str) :=
  (vagueDayOrder.map fun i =>
    vaguePrefixes.map fun p =>
      (p ++ dayNameOf i,
       dayNameOf i ++ str ", " ++ fmtBdY (nextWeekdayDate today i))).flatten

/-- Lines 567–569: apply the vague-phrase replacements, in order, each as
`re.sub(r'\b...\b', repl, response, flags=re.IGNORECASE)`. -/
def applyVaguePhrases (today : Date) (r : Str) : Str :=
  (vaguePhrases today).foldl (fun acc pr => subWordCI pr.1 pr.2 acc) r

/-- Lines 517–526: the `replacements` map — each day name to its own next
occurrence, plus `tomorrow` to `"tomorrow (<%A, %B %d, %Y>)"`. -/
def replacementsMap (today : Date) : List (Str × Str) :=
  ((List.range 7).map fun i =>
    (dayNameOf i, dayNameOf i ++ str ", " ++ fmtBdY (nextWeekdayDate today i)))
  ++ [(str "tomorrow", str "tomorrow (" ++ fmtABdY (addDays today 1) ++ str ")")]

/-- Lines 739–741: the non-scheduling day replacement loop (guarded
against already-stamped day names). -/
def applyReplacements (today : Date) (r : Str) : Str :=
  (replacementsMap today).foldl (fun acc pr => subDayGuard pr.1 pr.2 acc) r

/-- Lines 601–627: the `week_replacements` map — Monday through Sunday of
the NEXT week (consecutive days from next Monday), plus `tomorrow`. -/
def weekReplacementsMap (today : Date) : List (Str × Str) :=
  let nwm := nextWeekdayDate today 0
  ((List.range 7).map fun i =>
    (dayNameOf i, dayNameOf i ++ str ", " ++ fmtBdY (addDays nwm i)))
  ++ [(str "tomorrow", str "tomorrow (" ++ fmtABdY (addDays today 1) ++ str ")")]

/-- Lines 644–651: the scheduling-branch day replacement loop, skipping a
day that appears in a `Day[-–]Friday` or `Monday through Day` range in
the current response. -/
def applyWeekReplacements (today : Date) (r : Str) : Str :=
  (weekReplacementsMap today).foldl
    (fun acc pr =>
      if hasDayDashFriday pr.1 acc then acc
      else if hasMondayThrough pr.1 acc then acc
      else subDayGuard pr.1 pr.2 acc) r

/-- The fixed Sunday closed-day refusal (lines 690 and 730), parameterised
by the date text it names. -/
def sundayClosedMsg (dateText : Str) : Str :=
  str "I'm sorry, but our clinic is closed on Sundays. " ++ dateText ++
  str " is not available for appointments. We're open Monday-Friday from 8:00 AM to 6:00 PM, and Saturday from 9:00 AM to 2:00 PM. Would you like to choose a different day for your appointment?"

/-- Lines 667–685: parse the user's matched date string — clean ordinal
suffixes, then `"%B %d, %Y"` when a comma is present, else `"%B %d"` then
`"%d %B"`, with the fixed 1900→2025 year fix-up (the year is never taken
from the anchor date). -/
def parseUserDate (dstr : Str) : Option Date :=
  if containsSub (str ",") (cleanOrdB dstr) then strptimeBdY (cleanOrdB dstr)
  else
    (match strptimeBd (cleanOrdB dstr) with
     | some d => some d
     | none => strptimedB (cleanOrdB dstr)).map fix1900

/-- Lines 653–693: the user-turn Sunday check — extract the user message
after `"User message:"`, find an explicit month/day date, parse it (year
2025 when no year is given) and replace the whole response by the refusal
when it falls on a Sunday. -/
def userSundayCheck (response input_text : Str) : Str :=
  match afterFirst (str "User message:") input_text with
  | none => response
  | some tail =>
    let user_message := strip tail
    match userDateMatch user_message with
    | none => response
    | some dstr =>
      match parseUserDate dstr with
      | some d =>
        if weekdayName d == str "Sunday" then sundayClosedMsg (fmtBdY d)
        else response
      | none => response

/-- Lines 711–718: parse the response's matched date string —
`"%B %d, %Y"` when a comma is present, else `"%B %d"` with the fixed
1900→2025 year fix-up (the year is never taken from the anchor date). -/
def parseConflictDate (dstr : Str) : Option Date :=
  if containsSub (str ",") dstr then strptimeBdY dstr
  else (strptimeBd dstr).map fix1900

/-- Lines 695–733: the day-name/date conflict fix — find
`Weekday,? Month D[, Y]` in the response, recompute the weekday (year
2025 when absent), replace a wrong weekday, and replace the whole
response by the refusal when the date is a Sunday. -/
def conflictFix (response : Str) : Str :=
  match dateDayMatch response with
  | none => response
  | some full =>
    match dayInMatch full, dateInMatch full with
    | some mentioned, some dstr =>
      match parseConflictDate dstr with
      | none => response
      | some d =>
        let actual := weekdayName d
        let r1 :=
          if mentioned == actual then response
          else
            pyReplace (mentioned ++ str " " ++ dstr) (actual ++ str " " ++ dstr)
              (pyReplace (mentioned ++ str ", " ++ dstr) (actual ++ str ", " ++ dstr)
                response)
        if actual == str "Sunday" then sundayClosedMsg dstr else r1
    | _, _ => response

/-- Lines 573–576: the business-hours-only indicator phrases. -/
def businessHoursOnlyIndicators : List Str :=
  [str "business hours", str "office hours", str "clinic hours",
   str "open hours", str "what are your hours", str "when are you open",
   str "hours", str "operating hours"]

/-- Lines 578–581: the appointment-scheduling indicator phrases. -/
def apptSchedulingIndicators : List Str :=
  [str "schedule an appointment", str "book an appointment",
   str "appointment for", str "when would you like to come in",
   str "preferred date", str "appointment on"]

/-- Line 583: `is_business_hours_only`. -/
def businessHoursOnlyB (r : Str) : Bool :=
  businessHoursOnlyIndicators.any fun i => containsSub i (lowerStr r)

/-- Line 584: `is_appointment_scheduling`. -/
def apptSchedulingB (r : Str) : Bool :=
  apptSchedulingIndicators.any fun i => containsSub i (lowerStr r)

/-- Line 636: `is_next_month_request`. -/
def nextMonthRequestB (input : Str) : Bool :=
  [str "next month", str "following month", str "upcoming month"].any fun p =>
    containsSub p (lowerStr input)

/-- Lines 639 and 737: `is_sunday_closure_message`. -/
def sundayClosureB (r : Str) : Bool :=
  containsSub (str "closed on sundays") (lowerStr r) ||
  containsSub (str "closed on sunday") (lowerStr r)

/-- Stages 1–5 of `_apply_date_replacements` (everything before the
appointment-summary stage): vague phrases, then either the scheduling
branch (week replacements + user Sunday check + conflict fix) or the
plain day-replacement branch, skipped entirely for pure business-hours
responses. -/
def preSummaryStages (today : Date) (r input : Str) : Str :=
  let r1 := applyVaguePhrases today r
  let bho := businessHoursOnlyB r1
  let sched := apptSchedulingB r1
  if sched || !bho then
    if sched then
      let r2 :=
        if !hasSpecificDates r1 && !nextMonthRequestB input && !sundayClosureB r1
        then applyWeekReplacements today r1
        else r1
      conflictFix (userSundayCheck r2 input)
    else
      if sundayClosureB r1 then r1 else applyReplacements today r1
  else r1

/-! ## Conversation history and slot extraction
(`chatbot_chain.py` lines 795–933; history from `conversation_manager.py`) -/

/-- A message of the conversation history (`HumanMessage` / `AIMessage`). -/
inductive Msg where
  | human (content : Str)
  | ai (content : Str)
deriving DecidableEq

/-- `isinstance(message, HumanMessage)`. -/
def Msg.isHuman : Msg → Bool
  | .human _ => true
  | .ai _ => false

/-- The extraction state: each field is `None` or a string; a set field
may still be falsy (the empty string), which Python treats as unset. -/
structure Slots where
  patientName : Option Str := none
  reason : Option Str := none
  dateStr : Option Str := none
  timeStr : Option Str := none
  phone : Option Str := none
deriving DecidableEq

/-- Python truthiness of an optional string: set and non-empty. -/
def truthy : Option Str → Bool
  | none => false
  | some s => !s.isEmpty

/-- Line 815: the keyword list excluding a short message from being a
name. -/
def nameKeywords : List Str :=
  [str "appointment", str "schedule", str "book", str "checkup",
   str "cleaning", str "pain", str "emergency", str "monday",
   str "tuesday", str "wednesday", str "thursday", str "friday",
   str "saturday", str "sunday", str "tomorrow", str "phone",
   str "contact", str "am", str "pm", str ":"]

/-- Lines 814–817: a turn qualifies as a name — at most 4 words, no
keyword in its lower-casing, no digit. -/
def nameMatches (t : Str) : Bool :=
  decide ((splitWS t).length ≤ 4) &&
  !(nameKeywords.any fun k => containsSub k (lowerStr t)) &&
  !(t.any fun ch => isDig ch)

/-- Lines 820–828: the canonical reason label from the lower-cased turn
(checkup before cleaning before pain before emergency). -/
def reasonOf (lc : Str) : Option Str :=
  if containsSub (str "checkup") lc then some (str "Checkup")
  else if containsSub (str "cleaning") lc then some (str "Cleaning")
  else if containsSub (str "pain") lc then some (str "Pain")
  else if containsSub (str "emergency") lc then some (str "Emergency")
  else none

/-- Lines 837–842: the upper-cased time match of a turn, unless the turn
looks like the bot's own availability list. -/
def timeCandidate (t : Str) : Option Str :=
  if !containsSub (str "availability at") (lowerStr t) &&
     !containsSub (str "prefer for your appointment") (lowerStr t) then
    (historyTimeMatch t).map upperStr
  else none

/-- Lines 813–817: the name extraction on one (stripped) turn. -/
def stepName (st : Slots) (c : Str) : Slots :=
  if truthy st.patientName then st
  else if nameMatches c then { st with patientName := some (titleCase c) }
  else st

/-- Lines 819–828: the reason extraction. -/
def stepReason (st : Slots) (c : Str) : Slots :=
  if truthy st.reason then st
  else
    match reasonOf (lowerStr c) with
    | some v => { st with reason := some v }
    | none => st

/-- Lines 830–834: the date extraction. -/
def stepDate (st : Slots) (c : Str) : Slots :=
  if truthy st.dateStr then st
  else
    match historyDateMatch c with
    | some t => { st with dateStr := some t }
    | none => st

/-- Lines 836–842: the time extraction. -/
def stepTime (st : Slots) (c : Str) : Slots :=
  if truthy st.timeStr then st
  else
    match timeCandidate c with
    | some t => { st with timeStr := some t }
    | none => st

/-- Lines 844–848: the phone extraction. -/
def stepPhone (st : Slots) (c : Str) : Slots :=
  if truthy st.phone then st
  else
    match historyPhoneMatch c with
    | some t => { st with phone := some t }
    | none => st

/-- Lines 811–848: process one human turn against the extraction state —
each field is written only when its current value is falsy
(`if not field:`), in the source's order name, reason, date, time,
phone. -/
def extractStep (st : Slots) (raw : Str) : Slots :=
  let c := strip raw
  stepPhone (stepTime (stepDate (stepReason (stepName st c) c) c) c) c

/-- Lines 808–848: scan the session history, processing only
`HumanMessage` turns. -/
def extractFromHistory (h : List Msg) : Slots :=
  h.foldl
    (fun st m =>
      match m with
      | .human c => extractStep st c
      | .ai _ => st)
    {}

/-- Lines 850–860: the patient name, with the fallback that extracts a
capitalised name from the current response when the history yielded
none. -/
def resolvedPatientName (h : List Msg) (response : Str) : Option Str :=
  let pn := (extractFromHistory h).patientName
  if truthy pn then pn
  else
    match nameFallback response with
    | some n => some n
    | none => pn

/-- Lines 862–883: the time string — normalised history time, with the
fallback that extracts a `H:MM am/pm` time from the current response
(unless the response looks like an availability list). -/
def resolvedTimeStr (h : List Msg) (response : Str) : Option Str :=
  let t0 := (extractFromHistory h).timeStr
  let t1 := if truthy t0 then some (normalizeTime (t0.getD [])) else t0
  if truthy t1 then t1
  else if !containsSub (str "availability at") (lowerStr response) then
    match responseTimeMatch response with
    | some t => some t
    | none => t1
  else t1

/-- Lines 894–895: the two formats carrying an explicit year. -/
def parseApptYearFmts (s : Str) : Option Date :=
  match strptimedbY s with
  | some d => some d
  | none => strptimedBY s

/-- Lines 893–902: try `%d %b %Y`, `%d %B %Y`, `%d %b`, `%d %B` in order. -/
def parseApptFmts (s : Str) : Option Date :=
  match parseApptYearFmts s with
  | some d => some d
  | none =>
    match strptimedb s with
    | some d => some d
    | none => strptimedB s

/-- Lines 887–904: parse the extracted date string (ordinals stripped),
apply the 1900→2025 fix-up, format as `%A, %B %d, %Y`. -/
def apptDayDateFromStr (s : Str) : Option Str :=
  (parseApptFmts (stripOrd s)).map fun d => fmtABdY (fix1900 d)

/-- Lines 907–912: first weekday name contained in the response. -/
def firstDayIn (resp : Str) : Option Str :=
  weekdayNames.find? fun d => containsSub d resp

/-- Lines 885–918: the `day_date` used by the summary — parsed history
date, else the `replacements` entry of the first day name mentioned in
the response. -/
def resolvedDayDate (today : Date) (h : List Msg) (response : Str) : Option Str :=
  let ds := (extractFromHistory h).dateStr
  let d1 := if truthy ds then apptDayDateFromStr (ds.getD []) else none
  if truthy d1 then d1
  else
    match firstDayIn response with
    | some day =>
      some ((((replacementsMap today).find? fun pr => pr.1 == day).map Prod.snd).getD day)
    | none => d1

/-! ## The appointment-summary stage (lines 743–933) -/

/-- Lines 746–757: `has_specific_appointment_details` over the full input
text. -/
def hasSpecificApptDetails (input : Str) : Bool :=
  hasTwoCapWords input || hasPhoneSepB input || hasPhone10B input ||
  hasTimeB input || hasDateDetail1 input || hasDateDetail2 input

/-- Lines 759–762: `is_confirmed_booking`. -/
def isConfirmedBooking (r input : Str) : Bool :=
  let rl := lowerStr r
  ([str "confirmed", str "scheduled", str "booked", str "finalized"].any
    fun p => containsSub p rl) ||
  (containsSub (str "appointment") rl &&
   ([str "scheduled for", str "booked for", str "appointment for"].any
     fun p => containsSub p rl) &&
   hasSpecificApptDetails input)

/-- Lines 765–768: `is_cancellation_or_change`. -/
def isCancellationOrChange (r input : Str) : Bool :=
  ([str "cancel", str "cancelled", str "cancellation", str "change",
    str "reschedule", str "modify", str "update"].any
    fun p => containsSub p (lowerStr r)) ||
  ([str "cancel", str "change", str "reschedule", str "modify",
    str "update", str "different time", str "different date"].any
    fun p => containsSub p (lowerStr input))

/-- Lines 772–774: the user's own message from the full input text
(after the last `"User message:"`). -/
def userMessageOnly (input : Str) : Str :=
  if containsSub (str "User message:") input
  then strip (afterLast (str "User message:") input)
  else input

/-- Lines 776–779: `is_confirmation_only`. -/
def isConfirmationOnly (input : Str) : Bool :=
  let u := strip (lowerStr (userMessageOnly input))
  [str "confirm", str "yes", str "ok", str "okay", str "yes please",
   str "yes, please"].any fun t => u == t

/-- Lines 783–789: `has_existing_summary` — the structured summary-block
markers (the first marker text reproduces the source file's bytes). -/
def hasExistingSummary (r : Str) : Bool :=
  containsSub (str "ðŸ“… **Appointment Summary:**") r ||
  containsSub (str "**Appointment Summary:**") r ||
  containsSub (str "**Patient Name:**") r ||
  containsSub (str "**Date & Time:**") r ||
  containsSub (str "**Appointment Type:**") r

/-- Line 793: the condition guarding the summary append. -/
def summaryGuard (r input : Str) : Bool :=
  isConfirmedBooking r input && !hasExistingSummary r &&
  !isCancellationOrChange r input && !isConfirmationOnly input

/-- Lines 920–933: the appended summary block for the resolved fields. -/
def summaryBlock (pname : Option Str) (dd ts : Str) (reason phone : Option Str) : Str :=
  let parts :=
    (match pname, truthy pname with
     | some n, true => [str "- **Patient Name:** " ++ n]
     | _, _ => []) ++
    [str "- **Date & Time:** " ++ dd ++ str " at " ++ ts] ++
    (match reason, truthy reason with
     | some re, true => [str "- **Reason:** " ++ re]
     | _, _ => []) ++
    (match phone, truthy phone with
     | some p, true => [str "- **Contact:** " ++ p]
     | _, _ => [])
  str "\n\nðŸ“… **Appointment Summary:**\n" ++
    (parts.intersperse (str "\n")).flatten ++
    str "\n\nTo complete your booking, please click the 'Confirm Appointment' button below, or I can have our receptionist call you to finalize the booking. Is there anything else you'd like to know?"

/-- Lines 743–933: the summary stage — append one summary block when the
guard holds and both a time and a day/date were resolved. -/
def summaryStage (today : Date) (r input : Str) (h : List Msg) : Str :=
  if summaryGuard r input then
    let tstr := resolvedTimeStr h r
    let dd := resolvedDayDate today h r
    if truthy tstr && truthy dd then
      r ++ summaryBlock (resolvedPatientName h r) (dd.getD []) (tstr.getD [])
        (extractFromHistory h).reason (extractFromHistory h).phone
    else r
  else r

/-- `DentalChatbot._apply_date_replacements(response, today, input_text,
session)` — the full rewrite pipeline. -/
def applyDateReplacements (today : Date) (r input : Str) (h : List Msg) : Str :=
  summaryStage today (preSummaryStages today r input) input h

/-! ## MockLLM time validation (`llm_provider.py` lines 140–160) -/

/-- Line 142: `(\d{1,2})(?::(\d{2}))?\s*(am|pm)` (case-insensitive),
returning (hour value, lower-cased am/pm, matched text). -/
def mockTimeSearch (s : Str) : Option (Nat × Str × Str) :=
  reSearch0
    (fun _ t =>
      match mdigits12 t with
      | none => none
      | some nd =>
        let hour := natVal (t.take nd)
        let r1 := t.drop nd
        let nc :=
          match r1 with
          | ':' :: t2 => if 2 ≤ (t2.takeWhile isDig).length then 3 else 0
          | _ => 0
        let r2 := r1.drop nc
        let nsp := (r2.takeWhile isSpc).length
        let r3 := r2.drop nsp
        match malt (mlit true (str "am")) (mlit true (str "pm")) r3 with
        | some na =>
          some (hour, lowerStr (r3.take na), t.take (nd + nc + nsp + na))
        | none => none)
    s

/-- Lines 147–151: 12-hour to 24-hour conversion. -/
def to24 (hour : Nat) (ampm : Str) : Nat :=
  if ampm == str "pm" && hour != 12 then hour + 12
  else if ampm == str "am" && hour == 12 then 0
  else hour

/-- Line 158: the out-of-hours message, naming the matched time text. -/
def outOfHoursMsg (g0 : Str) : Str :=
  str "I apologize, but our clinic hours are Monday-Friday 8:00 AM - 6:00 PM, and Saturday 9:00 AM - 2:00 PM. The time you requested (" ++
  g0 ++
  str ") is outside our business hours. Would you like to choose a time during our operating hours? We have availability at 9:00 AM, 10:00 AM, 2:00 PM, 3:00 PM, and 4:30 PM."

/-- Line 160: the message when the time passes validation. -/
def excellentMsg : Str := str "Excellent! What's your contact phone number?"

/-- Lines 140–160: the `elif "am" in ... or "pm" in ... or ":" in ...`
branch of `MockLLM._get_mock_response` — the only time validation in the
code: reject exactly when the converted hour is below 8 or above 18,
independent of the weekday. -/
def mockTimeBranch (user_message : Str) : Str :=
  match mockTimeSearch user_message with
  | some (h, ap, g0) =>
    let hour := to24 h ap
    if hour < 8 || 18 < hour then outOfHoursMsg g0 else excellentMsg
  | none => excellentMsg

/-- Line 140: the condition entering the time branch (`user_message` is
already lower-cased by the caller). -/
def mockTimeBranchApplies (user_message : Str) : Bool :=
  containsSub (str "am") user_message || containsSub (str "pm") user_message ||
  containsSub (str ":") user_message

/-- Modelled from the spec (§4.1, for comparison with the code):
`in_business_hours(weekday, hour24)`: Monday–Friday → [8,18); Saturday →
[9,14); Sunday → always false.  No such predicate exists in the code. -/
def inBusinessHoursSpec (weekday hour24 : Nat) : Bool :=
  if weekday ≤ 4 then 8 ≤ hour24 && hour24 < 18
  else if weekday == 5 then 9 ≤ hour24 && hour24 < 14
  else false

/-! ## Sessions (`conversation_manager.py`, `config.py`) -/

/-- `config.py` line 37. -/
def SESSION_TIMEOUT_MINUTES : Nat := 30

/-- `config.py` line 35. -/
def MAX_CONVERSATION_HISTORY : Nat := 10

/-- `ConversationSession` (lines 18–108): identity, clock values (in
minutes), counter and the memory buffer. -/
structure CSession where
  sessionId : String
  userId : String
  createdAt : Nat
  lastActivity : Nat
  messageCount : Nat
  history : List Msg
deriving DecidableEq

/-- Lines 67–75: `is_expired` — `now - last_activity > timeout` with the
timeout of `SESSION_TIMEOUT_MINUTES` minutes. -/
def isExpired (now : Nat) (s : CSession) : Bool :=
  SESSION_TIMEOUT_MINUTES < now - s.lastActivity

/-- The memory used with the default settings
(`CONVERSATION_MEMORY_TYPE = "buffer"`): langchain's
`ConversationBufferMemory.save_context` appends the human and AI messages
to the buffer.  The class has no `max_len` field, so the
`max_len=settings.MAX_CONVERSATION_HISTORY` constructor argument of
`_create_memory` (lines 41–45) is ignored by its pydantic model and the
buffer is unbounded. -/
def saveContext (mem : List Msg) (inp out : Str) : List Msg :=
  mem ++ [.human inp, .ai out]

/-- Lines 77–80: `update_activity`. -/
def updateActivity (now : Nat) (s : CSession) : CSession :=
  { s with lastActivity := now, messageCount := s.messageCount + 1 }

/-- Lines 82–94: `add_message` — save the exchange, then update
activity. -/
def addMessage (s : CSession) (hm am : Str) (now : Nat) : CSession :=
  updateActivity now { s with history := saveContext s.history hm am }

/-- The session store (`ConversationManager.sessions` dict). -/
abbrev Store := List (String × CSession)

/-- `self.sessions.get(session_id)`. -/
def lookupS (store : Store) (sid : String) : Option CSession :=
  (store.find? fun p => p.1 == sid).map Prod.snd

/-- Lines 153–162: `end_session` — unconditional removal, idempotent. -/
def endSession (store : Store) (sid : String) : Store :=
  store.filter fun p => p.1 != sid

/-- Lines 134–151: `get_session` — fetch; when present and expired, end
the session and return not-found; otherwise return it unchanged. -/
def getSession (store : Store) (sid : String) (now : Nat) :
    Option CSession × Store :=
  match lookupS store sid with
  | some s =>
    if isExpired now s then (none, endSession store sid) else (some s, store)
  | none => (none, store)

/-- Record a sequence of (human, assistant) turn pairs via
`add_message`. -/
def recordTurns (s : CSession) (now : Nat) (pairs : List (Str × Str)) : CSession :=
  pairs.foldl (fun acc pr => addMessage acc pr.1 pr.2 now) s

end Dental

namespace Dental

/-- C1. For every anchor day number `a` and weekday index `w ∈ [0,7)`,
the resolved next occurrence of `w` is strictly after `a`, at most 7 days
after `a`, has weekday `w`, and equals `a + 7` exactly when `a`'s weekday
is already `w`. -/
theorem nextOccurrence_bounds (a w : Int) (hw0 : 0 ≤ w) (hw7 : w < 7) :
    a < nextOccurrenceAbs a w ∧
    nextOccurrenceAbs a w ≤ a + 7 ∧
    weekdayAbs (nextOccurrenceAbs a w) = w ∧
    (weekdayAbs a = w → nextOccurrenceAbs a w = a + 7) := by
  unfold nextOccurrenceAbs daysUntilWeekday weekdayAbs
  simp only
  split
  · rename_i h0
    refine ⟨by omega, by omega, ?_, fun _ => rfl⟩
    omega
  · rename_i h0
    refine ⟨?_, ?_, ?_, ?_⟩
    · omega
    · omega
    · omega
    · intro hwa
      exfalso
      apply h0
      omega

/-- Witness for `nextOccurrence_bounds` at anchor day number 739551
(October 21, 2025 in the numbering with day ≡ weekday (mod 7); a Tuesday)
and target weekday 1 (Tuesday): the same-day case resolves 7 days ahead. -/
theorem nextOccurrence_bounds_witness :
    (0 : Int) ≤ 1 ∧ (1 : Int) < 7 ∧
    (739551 : Int) < nextOccurrenceAbs 739551 1 ∧
    nextOccurrenceAbs 739551 1 = 739551 + 7 := by
  have h := nextOccurrence_bounds 739551 1 (by decide) (by decide)
  exact ⟨by decide, by decide, h.1, h.2.2.2 (by decide)⟩

/-! ## Concrete pipeline inputs used by the claims -/

/-- The anchor date October 21, 2025 (a Tuesday, as in the spec's
scenario). -/
def today0 : Date := ⟨2025, 10, 21⟩

/-- A raw response containing the relative token `tomorrow`. -/
def respTomorrow : Str := str "Your appointment is tomorrow."

/-- The matching input text. -/
def inputTomorrow : Str := str "User message: tomorrow"

/-- C2. The rewrite pipeline is not idempotent: on the response
`"Your appointment is tomorrow."` the first application stamps the
`tomorrow` token with a date, and a second application stamps it again
(the double-stamp guard's lookahead only recognises the
`"Day, Month DD, YYYY"` shape, not the `"tomorrow (...)"` shape it
itself produces), yielding
`"... tomorrow (Wednesday, October 22, 2025) (Wednesday, October 22, 2025)."`. -/
theorem rewrite_not_idempotent_tomorrow :
    applyDateReplacements today0
        (applyDateReplacements today0 respTomorrow inputTomorrow [])
        inputTomorrow []
      ≠ applyDateReplacements today0 respTomorrow inputTomorrow [] := by
  decide

/-- A response with no appointment-scheduling indicator phrase. -/
def respAskTime : Str := str "What time works for you?"

/-- An input whose user message names December 14 (a Sunday in 2025). -/
def inputDec14 : Str := str "User message: I need it on December 14"

/-- C3 counterexample. A user turn naming December 14 (a Sunday in 2025)
does NOT yield the closed-day refusal when the response carries no
appointment-scheduling indicator phrase: the Sunday check (lines 653–693)
only runs inside the `is_appointment_scheduling` branch, and the response
passes through unchanged. -/
theorem sunday_user_date_not_always_refused :
    applyDateReplacements today0 respAskTime inputDec14 []
      ≠ sundayClosedMsg (fmtBdY ⟨2025, 12, 14⟩) ∧
    applyDateReplacements today0 respAskTime inputDec14 [] = respAskTime := by
  constructor
  · decide
  · decide

/-- A response carrying an appointment-scheduling indicator phrase. -/
def schedResp : Str := str "Would you like to schedule an appointment?"

/-- A user input asking for an appointment on month `m`, day `d`. -/
def mkSundayInput (m d : Nat) : Str :=
  str "User message: I need an appointment on " ++ monthName m ++ str " " ++ natStr d

/-- All (month, day) pairs of 2025 whose weekday is Sunday. -/
def sundays2025 : List (Nat × Nat) :=
  (((List.range 12).map (· + 1)).map fun m =>
    ((((List.range 31).map (· + 1)).filter fun d =>
        d ≤ daysInMonth 2025 m && weekdayOf ⟨2025, m, d⟩ == 6).map fun d =>
      (m, d))).flatten

/-- Checker for one Sunday date: the pre-summary stages produce exactly
the refusal, and the summary guard is false on the refusal. -/
def c3check (md : Nat × Nat) : Bool :=
  let inp := mkSundayInput md.1 md.2
  let msg := sundayClosedMsg (fmtBdY ⟨2025, md.1, md.2⟩)
  preSummaryStages today0 schedResp inp == msg && summaryGuard msg inp == false

set_option maxRecDepth 100000 in
/-- All 52 Sundays of 2025 pass the checker. -/
lemma c3check_all : sundays2025.all c3check = true := by decide

/-- C3 amended. In the appointment-scheduling branch the user-turn Sunday
check does hold: for every Sunday date of 2025 named in the user message
and every session history, the pipeline output is exactly the fixed
closed-day refusal naming that date (so no summary block is appended);
shown additionally for the response path, where a scheduling response that
pairs a weekday name with the Sunday date December 14 is also replaced by
the refusal (naming the date as matched, without a year). -/
theorem sunday_refusal_in_scheduling_branch :
    (∀ md ∈ sundays2025, ∀ hist : List Msg,
      applyDateReplacements today0 schedResp (mkSundayInput md.1 md.2) hist
        = sundayClosedMsg (fmtBdY ⟨2025, md.1, md.2⟩)) ∧
    applyDateReplacements today0
        (str "We can schedule an appointment for Saturday, December 14.")
        (str "User message: please book it") []
      = sundayClosedMsg (str "December 14") := by
  constructor
  · intro md hmem hist
    have hc : c3check md = true := List.all_eq_true.mp c3check_all md hmem
    unfold c3check at hc
    simp only [Bool.and_eq_true, beq_iff_eq] at hc
    unfold applyDateReplacements
    rw [hc.1]
    unfold summaryStage
    rw [hc.2]
    simp
  · decide

/-- Witness for `sunday_refusal_in_scheduling_branch` at December 14,
2025 with a nonempty history. -/
theorem sunday_refusal_in_scheduling_branch_witness :
    (12, 14) ∈ sundays2025 ∧
    applyDateReplacements today0 schedResp (mkSundayInput 12 14)
        [Msg.human (str "hello")]
      = sundayClosedMsg (fmtBdY ⟨2025, 12, 14⟩) :=
  ⟨by decide,
   sunday_refusal_in_scheduling_branch.1 (12, 14) (by decide)
     [Msg.human (str "hello")]⟩

/-! ## C4: business hours -/

/-- C4 counterexample. The spec's predicate excludes 18:00 on every
weekday (and 15:00 on Saturday), yet the code's only time validation —
`MockLLM`'s hour check — accepts `"6:00 pm"` (hour 18) and `"3:00 pm"`
(hour 15) and proceeds to ask for the phone number instead of returning
the out-of-hours message. -/
theorem sixPM_passes_mock_validation :
    ((List.range 7).all fun wd => !inBusinessHoursSpec wd 18) = true ∧
    inBusinessHoursSpec 5 15 = false ∧
    mockTimeBranch (str "6:00 pm") = excellentMsg ∧
    mockTimeBranch (str "3:00 pm") = excellentMsg := by
  decide

/-- Reduction of `mockTimeBranch` once the time search succeeds. -/
lemma mockTimeBranch_eq (msg : Str) (h : Nat) (ap g0 : Str)
    (hs : mockTimeSearch msg = some (h, ap, g0)) :
    mockTimeBranch msg =
      if to24 h ap < 8 ∨ 18 < to24 h ap then outOfHoursMsg g0
      else excellentMsg := by
  unfold mockTimeBranch
  rw [hs]
  simp only
  by_cases hc : to24 h ap < 8 ∨ 18 < to24 h ap
  · rw [if_pos hc]
    have hb : (decide (to24 h ap < 8) || decide (18 < to24 h ap)) = true := by
      rcases hc with hc | hc <;> simp [hc]
    simp [hb]
  · rw [if_neg hc]
    push_neg at hc
    have hb : (decide (to24 h ap < 8) || decide (18 < to24 h ap)) = false := by
      simp [Nat.not_lt.mpr hc.1, Nat.not_lt.mpr hc.2]
    simp [hb]

/-- C4 amended. The code's time validation is weekday-independent: for
any message in which a time parses, the out-of-hours message is returned
exactly when the converted 24-hour value is below 8 or above 18 — so
18:00 itself passes, and the Saturday [9,14) and Sunday closures are not
enforced by this check. -/
theorem mock_time_validation_hour_only (msg : Str) (h : Nat) (ap g0 : Str)
    (hs : mockTimeSearch msg = some (h, ap, g0)) :
    mockTimeBranch msg = outOfHoursMsg g0 ↔ (to24 h ap < 8 ∨ 18 < to24 h ap) := by
  have hne : excellentMsg ≠ outOfHoursMsg g0 := by
    intro he
    have h0 : excellentMsg.head? = (outOfHoursMsg g0).head? := by rw [he]
    rw [show excellentMsg.head? = some 'E' from rfl] at h0
    rw [show (outOfHoursMsg g0).head? = some 'I' from rfl] at h0
    exact absurd (Option.some.inj h0) (by decide)
  rw [mockTimeBranch_eq msg h ap g0 hs]
  by_cases hc : to24 h ap < 8 ∨ 18 < to24 h ap
  · rw [if_pos hc]
    exact ⟨fun _ => hc, fun _ => rfl⟩
  · rw [if_neg hc]
    exact ⟨fun he => absurd he hne, fun hcc => absurd hcc hc⟩

/-- Witness for `mock_time_validation_hour_only` at `"7:00 am"`
(hour 7, before opening): the out-of-hours message is returned. -/
theorem mock_time_validation_hour_only_witness :
    mockTimeSearch (str "7:00 am") = some (7, str "am", str "7:00 am") ∧
    mockTimeBranch (str "7:00 am") = outOfHoursMsg (str "7:00 am") :=
  ⟨by decide,
   (mock_time_validation_hour_only (str "7:00 am") 7 (str "am")
     (str "7:00 am") (by decide)).mpr (by decide)⟩

/-! ## C9: at most one summary block -/

/-- C9. The summary stage never appends to a response that already
carries a structured summary-block marker: when the pre-summary stages'
output contains one of the markers, the pipeline output is exactly that
pre-summary output, for every anchor, response, input and history. -/
theorem no_second_summary_block (today : Date) (r input : Str) (h : List Msg)
    (hes : hasExistingSummary (preSummaryStages today r input) = true) :
    applyDateReplacements today r input h = preSummaryStages today r input := by
  unfold applyDateReplacements summaryStage
  have hg : summaryGuard (preSummaryStages today r input) input = false := by
    unfold summaryGuard
    rw [hes]
    simp
  rw [hg]
  simp

/-- A response already carrying a summary marker and confirmation
language. -/
def respWithSummary : Str :=
  str "Your booking is confirmed. **Appointment Summary:** details above."

/-- Witness for `no_second_summary_block`: a confirmed-booking response
that already contains the `**Appointment Summary:**` marker passes
through without a second block. -/
theorem no_second_summary_block_witness :
    hasExistingSummary
        (preSummaryStages today0 respWithSummary (str "User message: thanks"))
      = true ∧
    applyDateReplacements today0 respWithSummary (str "User message: thanks") []
      = preSummaryStages today0 respWithSummary (str "User message: thanks") :=
  ⟨by decide,
   no_second_summary_block today0 respWithSummary (str "User message: thanks") []
     (by decide)⟩

/-! ## C10: the hard-wired year 2025 -/

/-- `strptime(s, "%B %d")` always yields the default year 1900. -/
lemma strptimeBd_year (s : Str) (d : Date) (h : strptimeBd s = some d) :
    d.year = 1900 := by
  unfold strptimeBd at h
  repeat' split at h
  all_goals first
  | exact absurd h (by simp)
  | (unfold mkValidDate at h
     split at h
     · rw [← Option.some.inj h]
     · exact absurd h (by simp))

/-- `strptime(s, "%d %B")` always yields the default year 1900. -/
lemma strptimedB_year (s : Str) (d : Date) (h : strptimedB s = some d) :
    d.year = 1900 := by
  unfold strptimedB at h
  repeat' split at h
  all_goals first
  | exact absurd h (by simp)
  | (unfold mkValidDate at h
     split at h
     · rw [← Option.some.inj h]
     · exact absurd h (by simp))

/-- `strptime(s, "%d %b")` always yields the default year 1900. -/
lemma strptimedb_year (s : Str) (d : Date) (h : strptimedb s = some d) :
    d.year = 1900 := by
  unfold strptimedb at h
  repeat' split at h
  all_goals first
  | exact absurd h (by simp)
  | (unfold mkValidDate at h
     split at h
     · rw [← Option.some.inj h]
     · exact absurd h (by simp))

/-- The 1900→2025 fix-up pins the year to 2025. -/
lemma fix1900_year (d : Date) (h : d.year = 1900) : (fix1900 d).year = 2025 := by
  unfold fix1900
  rw [if_pos (by simp [h])]

/-- C10. Every month/day parse site that sees no explicit year pins the
date to the fixed year 2025 (never deriving the year from the anchor
date, which none of the three parsers even receives): the user-turn
Sunday parser and the conflict-fix parser when the matched text has no
comma (no year), and the summary date parser when the explicit-year
formats fail. -/
theorem yearless_dates_pinned_to_2025 :
    (∀ s d, containsSub (str ",") (cleanOrdB s) = false →
      parseUserDate s = some d → d.year = 2025) ∧
    (∀ s d, containsSub (str ",") s = false →
      parseConflictDate s = some d → d.year = 2025) ∧
    (∀ s d, parseApptYearFmts (stripOrd s) = none →
      parseApptFmts (stripOrd s) = some d →
      apptDayDateFromStr s = some (fmtABdY (fix1900 d)) ∧
        (fix1900 d).year = 2025) := by
  refine ⟨?_, ?_, ?_⟩
  · intro s d hnc h
    unfold parseUserDate at h
    rw [hnc] at h
    simp only [Bool.false_eq_true, if_false] at h
    cases hbd : strptimeBd (cleanOrdB s) with
    | some d0 =>
      rw [hbd] at h
      have hfix : fix1900 d0 = d := by
        rw [show Option.map fix1900 (some d0) = some (fix1900 d0) from rfl] at h
        exact Option.some.inj h
      rw [← hfix]
      exact fix1900_year d0 (strptimeBd_year _ _ hbd)
    | none =>
      rw [hbd] at h
      cases hdB : strptimedB (cleanOrdB s) with
      | some d0 =>
        rw [hdB] at h
        have hfix : fix1900 d0 = d := by
          rw [show Option.map fix1900
              (match (none : Option Date) with
               | some d => some d
               | none => some d0) = some (fix1900 d0) from rfl] at h
          exact Option.some.inj h
        rw [← hfix]
        exact fix1900_year d0 (strptimedB_year _ _ hdB)
      | none =>
        rw [hdB] at h
        exact absurd h (by simp)
  · intro s d hnc h
    unfold parseConflictDate at h
    rw [hnc] at h
    simp only [Bool.false_eq_true, if_false] at h
    cases hbd : strptimeBd s with
    | some d0 =>
      rw [hbd] at h
      have hfix : fix1900 d0 = d := by
        rw [show Option.map fix1900 (some d0) = some (fix1900 d0) from rfl] at h
        exact Option.some.inj h
      rw [← hfix]
      exact fix1900_year d0 (strptimeBd_year _ _ hbd)
    | none =>
      rw [hbd] at h
      exact absurd h (by simp)
  · intro s d hyn h
    constructor
    · unfold apptDayDateFromStr
      rw [h]
      rfl
    · unfold parseApptFmts at h
      rw [hyn] at h
      simp only at h
      have h1900 : d.year = 1900 := by
        cases hdb : strptimedb (stripOrd s) with
        | some d0 =>
          rw [hdb] at h
          have : d0 = d := Option.some.inj h
          rw [← this]
          exact strptimedb_year _ _ hdb
        | none =>
          rw [hdb] at h
          exact strptimedB_year _ _ h
      exact fix1900_year d h1900

/-- Witness for `yearless_dates_pinned_to_2025` at the three sites:
`"December 14th"` (user turn), `"October 25"` (conflict fix) and
`"14 november"` (summary date). -/
theorem yearless_dates_pinned_to_2025_witness :
    (containsSub (str ",") (cleanOrdB (str "December 14th")) = false ∧
      parseUserDate (str "December 14th") = some ⟨2025, 12, 14⟩ ∧
      (⟨2025, 12, 14⟩ : Date).year = 2025) ∧
    (containsSub (str ",") (str "October 25") = false ∧
      parseConflictDate (str "October 25") = some ⟨2025, 10, 25⟩ ∧
      (⟨2025, 10, 25⟩ : Date).year = 2025) ∧
    (parseApptYearFmts (stripOrd (str "14 november")) = none ∧
      parseApptFmts (stripOrd (str "14 november")) = some ⟨1900, 11, 14⟩ ∧
      (fix1900 ⟨1900, 11, 14⟩).year = 2025) :=
  ⟨⟨by decide, by decide,
    yearless_dates_pinned_to_2025.1 (str "December 14th") ⟨2025, 12, 14⟩
      (by decide) (by decide)⟩,
   ⟨by decide, by decide,
    yearless_dates_pinned_to_2025.2.1 (str "October 25") ⟨2025, 10, 25⟩
      (by decide) (by decide)⟩,
   ⟨by decide, by decide,
    (yearless_dates_pinned_to_2025.2.2 (str "14 november") ⟨1900, 11, 14⟩
      (by decide) (by decide)).2⟩⟩

/-! ## C7: session expiry on access -/

/-- Ending a session removes it: the lookup after `end_session` fails. -/
lemma lookupS_endSession (store : Store) (sid : String) :
    lookupS (endSession store sid) sid = none := by
  induction store with
  | nil => rfl
  | cons p rest ih =>
    unfold endSession at ih ⊢
    by_cases hp : p.1 == sid
    · have : (p.1 != sid) = false := by simp_all [bne]
      simp [List.filter_cons, this, ih]
    · have : (p.1 != sid) = true := by simp_all [bne]
      simp only [List.filter_cons, this, if_true]
      unfold lookupS at ih ⊢
      simp [List.find?_cons, hp, ih]

/-- C7. `get_session` with an expired stored session returns not-found
and, in the same call, removes the session from the store; with an
unexpired session it returns the session and the store unchanged. -/
theorem getSession_expiry (store : Store) (sid : String) (now : Nat)
    (s : CSession) (hl : lookupS store sid = some s) :
    (isExpired now s = true →
      getSession store sid now = (none, endSession store sid) ∧
      lookupS (endSession store sid) sid = none) ∧
    (isExpired now s = false → getSession store sid now = (some s, store)) := by
  constructor
  · intro hexp
    refine ⟨?_, lookupS_endSession store sid⟩
    unfold getSession
    rw [hl]
    simp only [hexp, if_true]
  · intro hnexp
    unfold getSession
    rw [hl]
    simp only [hnexp, Bool.false_eq_true, if_false]

/-- A stored session last active at minute 0. -/
def sess0 : CSession := ⟨"a", "u", 0, 0, 0, []⟩

/-- A store holding `sess0`. -/
def store0 : Store := [("a", sess0)]

/-- Witness for `getSession_expiry`: at minute 31 the session (timeout
30 minutes) is expired, evicted and not found; at minute 30 it is
returned unchanged. -/
theorem getSession_expiry_witness :
    lookupS store0 "a" = some sess0 ∧
    isExpired 31 sess0 = true ∧
    getSession store0 "a" 31 = (none, endSession store0 "a") ∧
    lookupS (endSession store0 "a") "a" = none ∧
    isExpired 30 sess0 = false ∧
    getSession store0 "a" 30 = (some sess0, store0) := by
  have h31 := (getSession_expiry store0 "a" 31 sess0 (by decide)).1 (by decide)
  have h30 := (getSession_expiry store0 "a" 30 sess0 (by decide)).2 (by decide)
  exact ⟨by decide, by decide, h31.1, h31.2, by decide, h30⟩

/-! ## C8: the history bound that is not enforced -/

/-- A fresh session. -/
def freshSession : CSession := ⟨"s", "u", 0, 0, 0, []⟩

/-- `MAX_CONVERSATION_HISTORY + 1` = 11 (human, assistant) turn pairs. -/
def elevenPairs : List (Str × Str) :=
  (List.range (MAX_CONVERSATION_HISTORY + 1)).map fun i => (natStr i, str "ok")

/-- C8. Recording `MAX_CONVERSATION_HISTORY + 1` turn pairs leaves all
of them in the history — 22 messages, not the claimed 2·N = 20 — and the
oldest pair is still at the front (nothing was evicted): the
`ConversationBufferMemory` buffer is unbounded because its constructor
ignores the `max_len` argument. -/
theorem history_retains_all_eleven_pairs :
    (recordTurns freshSession 0 elevenPairs).history.length
        = 2 * (MAX_CONVERSATION_HISTORY + 1) ∧
    (recordTurns freshSession 0 elevenPairs).history.length
        ≠ 2 * MAX_CONVERSATION_HISTORY ∧
    (recordTurns freshSession 0 elevenPairs).history.head?
        = some (Msg.human (natStr 0)) := by
  decide

/-! ## C5: first-match-wins slot extraction -/

/-- Collapse a Python-falsy value to `none`: the observational value of a
field (an empty string behaves as unset throughout the source). -/
def pyV (o : Option Str) : Option Str := if truthy o then o else none

/-- The (truthy) name a single turn contributes. -/
def nameVal (raw : Str) : Option Str :=
  pyV (if nameMatches (strip raw) then some (titleCase (strip raw)) else none)

/-- The reason a single turn contributes. -/
def reasonVal (raw : Str) : Option Str := pyV (reasonOf (lowerStr (strip raw)))

/-- The date string a single turn contributes. -/
def dateVal (raw : Str) : Option Str := pyV (historyDateMatch (strip raw))

/-- The time string a single turn contributes. -/
def timeVal (raw : Str) : Option Str := pyV (timeCandidate (strip raw))

/-- The phone a single turn contributes. -/
def phoneVal (raw : Str) : Option Str := pyV (historyPhoneMatch (strip raw))

lemma stepName_reason (st : Slots) (c : Str) : (stepName st c).reason = st.reason := by
  unfold stepName; split
  · rfl
  · split <;> rfl

lemma stepName_dateStr (st : Slots) (c : Str) : (stepName st c).dateStr = st.dateStr := by
  unfold stepName; split
  · rfl
  · split <;> rfl

lemma stepName_timeStr (st : Slots) (c : Str) : (stepName st c).timeStr = st.timeStr := by
  unfold stepName; split
  · rfl
  · split <;> rfl

lemma stepName_phone (st : Slots) (c : Str) : (stepName st c).phone = st.phone := by
  unfold stepName; split
  · rfl
  · split <;> rfl

lemma stepReason_patientName (st : Slots) (c : Str) :
    (stepReason st c).patientName = st.patientName := by
  unfold stepReason; split
  · rfl
  · split <;> rfl

lemma stepReason_dateStr (st : Slots) (c : Str) : (stepReason st c).dateStr = st.dateStr := by
  unfold stepReason; split
  · rfl
  · split <;> rfl

lemma stepReason_timeStr (st : Slots) (c : Str) : (stepReason st c).timeStr = st.timeStr := by
  unfold stepReason; split
  · rfl
  · split <;> rfl

lemma stepReason_phone (st : Slots) (c : Str) : (stepReason st c).phone = st.phone := by
  unfold stepReason; split
  · rfl
  · split <;> rfl

lemma stepDate_patientName (st : Slots) (c : Str) :
    (stepDate st c).patientName = st.patientName := by
  unfold stepDate; split
  · rfl
  · split <;> rfl

lemma stepDate_reason (st : Slots) (c : Str) : (stepDate st c).reason = st.reason := by
  unfold stepDate; split
  · rfl
  · split <;> rfl

lemma stepDate_timeStr (st : Slots) (c : Str) : (stepDate st c).timeStr = st.timeStr := by
  unfold stepDate; split
  · rfl
  · split <;> rfl

lemma stepDate_phone (st : Slots) (c : Str) : (stepDate st c).phone = st.phone := by
  unfold stepDate; split
  · rfl
  · split <;> rfl

lemma stepTime_patientName (st : Slots) (c : Str) :
    (stepTime st c).patientName = st.patientName := by
  unfold stepTime; split
  · rfl
  · split <;> rfl

lemma stepTime_reason (st : Slots) (c : Str) : (stepTime st c).reason = st.reason := by
  unfold stepTime; split
  · rfl
  · split <;> rfl

lemma stepTime_dateStr (st : Slots) (c : Str) : (stepTime st c).dateStr = st.dateStr := by
  unfold stepTime; split
  · rfl
  · split <;> rfl

lemma stepTime_phone (st : Slots) (c : Str) : (stepTime st c).phone = st.phone := by
  unfold stepTime; split
  · rfl
  · split <;> rfl

lemma stepPhone_patientName (st : Slots) (c : Str) :
    (stepPhone st c).patientName = st.patientName := by
  unfold stepPhone; split
  · rfl
  · split <;> rfl

lemma stepPhone_reason (st : Slots) (c : Str) : (stepPhone st c).reason = st.reason := by
  unfold stepPhone; split
  · rfl
  · split <;> rfl

lemma stepPhone_dateStr (st : Slots) (c : Str) : (stepPhone st c).dateStr = st.dateStr := by
  unfold stepPhone; split
  · rfl
  · split <;> rfl

lemma stepPhone_timeStr (st : Slots) (c : Str) : (stepPhone st c).timeStr = st.timeStr := by
  unfold stepPhone; split
  · rfl
  · split <;> rfl

lemma stepName_patientName (st : Slots) (c : Str) :
    (stepName st c).patientName =
      if truthy st.patientName then st.patientName
      else
        match (if nameMatches c then some (titleCase c) else (none : Option Str)) with
        | some v => some v
        | none => st.patientName := by
  unfold stepName
  cases ht : truthy st.patientName
  · simp only [Bool.false_eq_true, if_false]
    cases hm : nameMatches c <;> simp
  · simp

lemma stepReason_reason (st : Slots) (c : Str) :
    (stepReason st c).reason =
      if truthy st.reason then st.reason
      else
        match reasonOf (lowerStr c) with
        | some v => some v
        | none => st.reason := by
  unfold stepReason
  cases ht : truthy st.reason
  · simp only [Bool.false_eq_true, if_false]
    cases hr : reasonOf (lowerStr c) <;> simp
  · simp

lemma stepDate_dateStr (st : Slots) (c : Str) :
    (stepDate st c).dateStr =
      if truthy st.dateStr then st.dateStr
      else
        match historyDateMatch c with
        | some v => some v
        | none => st.dateStr := by
  unfold stepDate
  cases ht : truthy st.dateStr
  · simp only [Bool.false_eq_true, if_false]
    cases hr : historyDateMatch c <;> simp
  · simp

lemma stepTime_timeStr (st : Slots) (c : Str) :
    (stepTime st c).timeStr =
      if truthy st.timeStr then st.timeStr
      else
        match timeCandidate c with
        | some v => some v
        | none => st.timeStr := by
  unfold stepTime
  cases ht : truthy st.timeStr
  · simp only [Bool.false_eq_true, if_false]
    cases hr : timeCandidate c <;> simp
  · simp

lemma stepPhone_phone (st : Slots) (c : Str) :
    (stepPhone st c).phone =
      if truthy st.phone then st.phone
      else
        match historyPhoneMatch c with
        | some v => some v
        | none => st.phone := by
  unfold stepPhone
  cases ht : truthy st.phone
  · simp only [Bool.false_eq_true, if_false]
    cases hr : historyPhoneMatch c <;> simp
  · simp

lemma extractStep_patientName (st : Slots) (c : Str) :
    (extractStep st c).patientName =
      if truthy st.patientName then st.patientName
      else
        match (if nameMatches (strip c) then some (titleCase (strip c))
               else (none : Option Str)) with
        | some v => some v
        | none => st.patientName := by
  simp only [extractStep]
  rw [stepPhone_patientName, stepTime_patientName, stepDate_patientName,
    stepReason_patientName, stepName_patientName]

lemma extractStep_reason (st : Slots) (c : Str) :
    (extractStep st c).reason =
      if truthy st.reason then st.reason
      else
        match reasonOf (lowerStr (strip c)) with
        | some v => some v
        | none => st.reason := by
  simp only [extractStep]
  rw [stepPhone_reason, stepTime_reason, stepDate_reason, stepReason_reason,
    stepName_reason]

lemma extractStep_dateStr (st : Slots) (c : Str) :
    (extractStep st c).dateStr =
      if truthy st.dateStr then st.dateStr
      else
        match historyDateMatch (strip c) with
        | some v => some v
        | none => st.dateStr := by
  simp only [extractStep]
  rw [stepPhone_dateStr, stepTime_dateStr, stepDate_dateStr, stepReason_dateStr,
    stepName_dateStr]

lemma extractStep_timeStr (st : Slots) (c : Str) :
    (extractStep st c).timeStr =
      if truthy st.timeStr then st.timeStr
      else
        match timeCandidate (strip c) with
        | some v => some v
        | none => st.timeStr := by
  simp only [extractStep]
  rw [stepPhone_timeStr, stepTime_timeStr, stepDate_timeStr, stepReason_timeStr,
    stepName_timeStr]

lemma extractStep_phone (st : Slots) (c : Str) :
    (extractStep st c).phone =
      if truthy st.phone then st.phone
      else
        match historyPhoneMatch (strip c) with
        | some v => some v
        | none => st.phone := by
  simp only [extractStep]
  rw [stepPhone_phone, stepTime_phone, stepDate_phone, stepReason_phone,
    stepName_phone]

/-- Generic first-match-wins characterisation for one field of the
extraction fold: the Python-truthy value of the field after folding over
the turns is, when the incoming state's field is falsy, the first truthy
candidate among the turns. -/
lemma foldl_field_firstMatch (f : Slots → Option Str) (cand : Str → Option Str)
    (hstep : ∀ st c, f (extractStep st c) =
      if truthy (f st) then f st
      else match cand c with | some v => some v | none => f st) :
    ∀ (hs : List Str) (st : Slots),
      pyV (f (hs.foldl extractStep st)) =
        if truthy (f st) then pyV (f st)
        else hs.findSome? fun c => pyV (cand c) := by
  intro hs
  induction hs with
  | nil =>
    intro st
    simp only [List.foldl_nil, List.findSome?]
    cases ht : truthy (f st)
    · simp only [Bool.false_eq_true, if_false]
      unfold pyV
      rw [ht]
      simp
    · simp
  | cons c rest ih =>
    intro st
    rw [List.foldl_cons, ih (extractStep st c), hstep st c]
    simp only [List.findSome?]
    cases ht : truthy (f st)
    · simp only [Bool.false_eq_true, if_false]
      cases hc : cand c with
      | some v =>
        simp only
        cases hv : truthy (some v)
        · have hpv : pyV (some v) = none := by unfold pyV; rw [hv]; simp
          rw [hpv]
          simp only [hv, Bool.false_eq_true, if_false]
        · have hpv : pyV (some v) = some v := by unfold pyV; rw [hv]; simp
          rw [hpv]
          simp only [hv, if_true]
      | none =>
        simp only
        have hpn : pyV (none : Option Str) = none := rfl
        rw [hpn]
        simp only [ht, Bool.false_eq_true, if_false]
    · simp only [if_true, ht]

/-- The history of a list of human turns folds with `extractStep`. -/
lemma extractFromHistory_map_human (hs : List Str) :
    extractFromHistory (hs.map Msg.human) = hs.foldl extractStep {} := by
  unfold extractFromHistory
  have : ∀ (l : List Str) (st : Slots),
      (l.map Msg.human).foldl
          (fun st m => match m with | .human c => extractStep st c | .ai _ => st)
          st
        = l.foldl extractStep st := by
    intro l
    induction l with
    | nil => intro st; rfl
    | cons c rest ih => intro st; simp only [List.map_cons, List.foldl_cons]; exact ih _
  exact this hs {}

/-- C5. Slot extraction is first-match-wins and immutable per field: over
any sequence of human turns, the (Python-truthy) extracted value of each
of the five fields is the value contributed by the earliest matching
turn (`List.findSome?`), so later turns never overwrite an earlier
match; in particular for the turns `["Rohit", "checkup", "Jordan"]` the
extracted name is `"Rohit"`, not `"Jordan"`. -/
theorem slot_extraction_first_match :
    (∀ hs : List Str,
      pyV (extractFromHistory (hs.map Msg.human)).patientName
          = hs.findSome? nameVal ∧
      pyV (extractFromHistory (hs.map Msg.human)).reason
          = hs.findSome? reasonVal ∧
      pyV (extractFromHistory (hs.map Msg.human)).dateStr
          = hs.findSome? dateVal ∧
      pyV (extractFromHistory (hs.map Msg.human)).timeStr
          = hs.findSome? timeVal ∧
      pyV (extractFromHistory (hs.map Msg.human)).phone
          = hs.findSome? phoneVal) ∧
    (extractFromHistory
        [Msg.human (str "Rohit"), Msg.human (str "checkup"),
         Msg.human (str "Jordan")]).patientName = some (str "Rohit") := by
  constructor
  · intro hs
    rw [extractFromHistory_map_human]
    refine ⟨?_, ?_, ?_, ?_, ?_⟩
    · rw [foldl_field_firstMatch Slots.patientName
        (fun c => if nameMatches (strip c) then some (titleCase (strip c)) else none)
        extractStep_patientName hs {}]
      rfl
    · rw [foldl_field_firstMatch Slots.reason
        (fun c => reasonOf (lowerStr (strip c))) extractStep_reason hs {}]
      rfl
    · rw [foldl_field_firstMatch Slots.dateStr
        (fun c => historyDateMatch (strip c)) extractStep_dateStr hs {}]
      rfl
    · rw [foldl_field_firstMatch Slots.timeStr
        (fun c => timeCandidate (strip c)) extractStep_timeStr hs {}]
      rfl
    · rw [foldl_field_firstMatch Slots.phone
        (fun c => historyPhoneMatch (strip c)) extractStep_phone hs {}]
      rfl
  · decide

/-! ## C6: what extraction may read -/

/-- A response naming John after `for`. -/
def respForJohn : Str := str "Your appointment is confirmed for John."

/-- A response naming Mary after `for`. -/
def respForMary : Str := str "Your appointment is confirmed for Mary."

/-- C6 counterexample. With the same (empty) history, the extracted
patient name differs between two responses: the name fallback (lines
851–860) reads the current raw response, so the extracted values are not
a function of the human turns alone. -/
theorem extraction_reads_response :
    resolvedPatientName [] respForJohn ≠ resolvedPatientName [] respForMary := by
  decide

/-- C6 amended. The history-scanning loop itself reads only human turns
(assistant messages never change the extraction state); the name and
time fields additionally fall back to the current raw response, but only
when the history yielded a falsy value — when the history has a truthy
name or time, the response is not consulted for that field. -/
theorem history_scan_human_turns_only :
    (∀ h : List Msg,
      extractFromHistory h = extractFromHistory (h.filter Msg.isHuman)) ∧
    (∀ (h : List Msg) (r : Str),
      truthy (extractFromHistory h).patientName = true →
      resolvedPatientName h r = (extractFromHistory h).patientName) ∧
    (∀ (h : List Msg) (r : Str),
      truthy (extractFromHistory h).timeStr = true →
      truthy (some (normalizeTime (((extractFromHistory h).timeStr).getD []))) = true →
      resolvedTimeStr h r
        = some (normalizeTime (((extractFromHistory h).timeStr).getD []))) := by
  refine ⟨?_, ?_, ?_⟩
  · intro h
    unfold extractFromHistory
    have : ∀ (l : List Msg) (st : Slots),
        l.foldl
            (fun st m => match m with | .human c => extractStep st c | .ai _ => st)
            st
          = (l.filter Msg.isHuman).foldl
              (fun st m => match m with | .human c => extractStep st c | .ai _ => st)
              st := by
      intro l
      induction l with
      | nil => intro st; rfl
      | cons m rest ih =>
        intro st
        cases m with
        | human c =>
          simp only [List.foldl_cons, List.filter_cons, Msg.isHuman, if_true]
          exact ih _
        | ai c =>
          simp only [List.foldl_cons, List.filter_cons, Msg.isHuman]
          exact ih st
    exact this h {}
  · intro h r ht
    unfold resolvedPatientName
    simp only [ht, if_true]
  · intro h r ht htn
    unfold resolvedTimeStr
    simp only [ht, htn, if_true]

/-- Witness for `history_scan_human_turns_only`: a history already
holding a name and a time; the conjuncts' conclusions hold with the
response never consulted. -/
theorem history_scan_human_turns_only_witness :
    truthy (extractFromHistory [Msg.human (str "dana"),
        Msg.human (str "3:00 pm")]).patientName = true ∧
    resolvedPatientName [Msg.human (str "dana"), Msg.human (str "3:00 pm")]
        respForJohn
      = (extractFromHistory [Msg.human (str "dana"),
          Msg.human (str "3:00 pm")]).patientName ∧
    resolvedTimeStr [Msg.human (str "dana"), Msg.human (str "3:00 pm")]
        respForJohn
      = some (normalizeTime
          (((extractFromHistory [Msg.human (str "dana"),
              Msg.human (str "3:00 pm")]).timeStr).getD [])) :=
  ⟨by decide,
   history_scan_human_turns_only.2.1 _ respForJohn (by decide),
   history_scan_human_turns_only.2.2 _ respForJohn (by decide) (by decide)⟩

end Dental
